import Mathlib

/-!
Verification of the flight price monitor (`src/flight_monitor.py`) against its
natural-language specification.  The Python source is shallowly embedded:

* `MonitorState` mirrors the mutable fields `lowest_price_list` / `last_price`
  of `FlightMonitor`.
* `check_flight_price` mirrors the evaluation/alert cycle of
  `FlightMonitor.check_flight_price` (lines 273–340): the parsed price list is
  a `List (String × Option Int)` (key, parsed amount or `None`), and the
  success of the SMTP dispatch is an external oracle `emailOk : Bool`.
* `setup_keys_names` mirrors the nested sliding-window loops of
  `FlightMonitor.setup_keys_names` (lines 60–82), with dates as integer day
  offsets.
* `fetch_flight_data` mirrors the selector fallback loop of
  `FlightMonitor.fetch_flight_data` (lines 151–220), including the fact that
  the Python local `raw_price` is never reset between keys.
* `runLoop` mirrors the sleep scheduling of `FlightMonitor.run`
  (lines 343–367).
-/

/-- The mutable alerting state of `FlightMonitor`:
`lowest_price_list` (the best price ever alerted, `None` when unset) and
`last_price` (the lowest price observed in the most recent successful cycle). -/
structure MonitorState where
  lowest_price_list : Option Int
  last_price : Option Int
deriving Repr, DecidableEq

/-- Result of one evaluation cycle: `fire` is the value of `should_send_email`
at line 314, `success` the returned `statue`, `state` the fields of `self`
after the cycle. -/
structure CycleResult where
  fire : Bool
  success : Bool
  state : MonitorState
deriving Repr, DecidableEq

/-- Embedding of `FlightMonitor.check_flight_price` (lines 288–340), starting
from the parsed price list (`flight_prices`).  `prices` pairs each key with its
parsed amount (`none` = Python `None`); `emailOk` tells whether
`self.send_email` would return `True` this cycle.

Line-by-line correspondence:
* `valid_prices = [p for p in flight_prices if p[1] is not None]` and
  `min(price[1] for price in valid_prices)` together are
  `(prices.filterMap Prod.snd).minimum?`;
* empty `valid_prices` → return `statue = False` with `self` untouched;
* lines 301–312 compute `should_send_email` and already assign
  `self.lowest_price_list`;
* lines 314–325: `statue` is the email result if firing, else `True`;
* line 327: `self.last_price = current_lowest_price` in either case. -/
def check_flight_price (threshold : Int) (st : MonitorState)
    (prices : List (String × Option Int)) (emailOk : Bool) : CycleResult :=
  match (prices.filterMap Prod.snd).min? with
  | none => ⟨false, false, st⟩
  | some current_lowest_price =>
    let fireBest : Bool × Option Int :=
      if current_lowest_price < threshold then
        match st.lowest_price_list with
        | none => (true, some current_lowest_price)
        | some best =>
          if current_lowest_price < best then (true, some current_lowest_price)
          else (false, some best)
      else (false, st.lowest_price_list)
    let statue : Bool := if fireBest.1 then emailOk else true
    ⟨fireBest.1, statue, ⟨fireBest.2, some current_lowest_price⟩⟩

/-- Iterating `check_flight_price` over a list of cycles, each cycle given by
its parsed price list and its email-dispatch outcome; returns the final
monitor state. -/
def runCycles (threshold : Int) (st : MonitorState)
    (cycles : List (List (String × Option Int) × Bool)) : MonitorState :=
  cycles.foldl (fun s c => (check_flight_price threshold s c.1 c.2).state) st

/-- Embedding of the inner loop of `FlightMonitor.setup_keys_names`
(lines 74–77): `while dep_date >= first_date and return_date <= last_date`,
emitting one `(dep_date, return_date)` key and advancing both dates by one
day.  Dates are integer day offsets. -/
def slideInner (first_date last_date dep_date return_date : Int) :
    List (Int × Int) :=
  if first_date ≤ dep_date ∧ return_date ≤ last_date then
    (dep_date, return_date) ::
      slideInner first_date last_date (dep_date + 1) (return_date + 1)
  else []
termination_by (last_date + 1 - return_date).toNat
decreasing_by simp_wf; omega

/-- Embedding of the outer loop of `setup_keys_names` (lines 72–81):
`while range_length >= self.shortest_date`.  Each iteration runs the inner
sweep starting from `(first_date, first_date + range_length - 1)` — on the
first iteration the source starts from `(first_date, last_date)`, which equals
this since `range_length = last_date - first_date + 1` there — then decrements
`range_length` and resets the dates. -/
def slideOuter (first_date last_date shortest_date range_length : Int) :
    List (Int × Int) :=
  if shortest_date ≤ range_length then
    slideInner first_date last_date first_date
        (first_date + range_length - 1) ++
      slideOuter first_date last_date shortest_date (range_length - 1)
  else []
termination_by (range_length + 1 - shortest_date).toNat
decreasing_by simp_wf; omega

/-- Embedding of `FlightMonitor.setup_keys_names` (lines 60–82).  A key
`"{title}_{dep}_{ret}"` is represented by its `(dep, ret)` day-offset pair
(the destination prefix is fixed and the date rendering is injective). -/
def setup_keys_names (first_date last_date shortest_date : Int) :
    List (Int × Int) :=
  slideOuter first_date last_date shortest_date (last_date - first_date + 1)

/-- `subAt pat s`: `pat` occurs at the head of `s` (character lists). -/
def subAt : List Char → List Char → Bool
  | [], _ => true
  | _ :: _, [] => false
  | p :: ps, c :: cs => p == c && subAt ps cs

/-- `subIn pat s`: `pat` occurs somewhere in `s` (character lists) —
Python's substring operator `in`. -/
def subIn (pat : List Char) : List Char → Bool
  | [] => subAt pat []
  | c :: cs => subAt pat (c :: cs) || subIn pat cs

/-- Python `raw_price and "kr" in raw_price` (line 197): the text is truthy
(non-empty) and contains the currency marker `"kr"`. -/
def hasKr (s : String) : Bool := s != "" && subIn "kr".data s.data

/-- The selector fallback loop of `fetch_flight_data` (lines 190–203) for one
key.  `selRes` lists, per entry of `price_selectors`, the outcome of the
bounded wait: `none` for `TimeoutException` (strategy skipped), `some t` when
an element with text `t` was located (then `raw_price = t`, and the loop
breaks exactly when `t` is non-empty and contains `"kr"`).  `raw` is the
Python local `raw_price` as the loop starts; `none` represents the variable
being unbound. -/
def selectorLoop : List (Option String) → Option String → Option String
  | [], raw => raw
  | none :: rest, raw => selectorLoop rest raw
  | some t :: rest, _ => if hasKr t then some t else selectorLoop rest (some t)

/-- Embedding of the outer per-key loop of `FlightMonitor.fetch_flight_data`
(lines 151–218), parameterized by each key's selector-wait outcomes (page
navigation, retries and cookie handling only determine those outcomes and are
abstracted into them).  Returns the `flight_data` list and the list of keys
for which a `debug_page_{key}.html` snapshot was written.  The second argument
is the Python local `raw_price`, which is NOT reset between loop iterations:

* if after the selector loop `raw_price` was never assigned (no prior key
  ever assigned it and every selector timed out), line 205 raises
  `UnboundLocalError`, the `except` at line 215 records `(key, None)`, and no
  snapshot is saved — `raw_price` stays unbound;
* if `raw_price` is non-empty — possibly a stale value left over from an
  earlier key — line 206 records `(key, raw_price)`;
* if `raw_price` is the empty string, lines 207–213 record `(key, None)` and
  save the snapshot.

(The final `return flight_data if flight_data else None` of line 220 only
turns the empty list into `None` for the caller and is not modelled here.) -/
def fetch_flight_data : List (String × List (Option String)) → Option String →
    List (String × Option String) × List String
  | [], _ => ([], [])
  | (key, sels) :: rest, carry =>
    match selectorLoop sels carry with
    | none =>
      let r := fetch_flight_data rest none
      ((key, none) :: r.1, r.2)
    | some s =>
      if s = "" then
        let r := fetch_flight_data rest (some s)
        ((key, none) :: r.1, key :: r.2)
      else
        let r := fetch_flight_data rest (some s)
        ((key, some s) :: r.1, r.2)

/-- Configured price threshold (line 48). -/
def price_threshold : Int := 8000

/-- Configured success-cycle sleep in seconds (line 49). -/
def check_interval : Int := 1800

/-- Configured failure-retry sleep in seconds (line 50). -/
def retry_interval : Int := 60

/-- Outcome of one `check_flight_price` cycle as seen by `run` (lines
347–367): the call returned `True`, returned `False`, escaped with an
unexpected exception caught by `except Exception` at line 365, or raised
`KeyboardInterrupt`. -/
inductive CycleOutcome
  | success
  | failure
  | error
  | interrupt
deriving Repr, DecidableEq

/-- Embedding of the `while True` loop of `FlightMonitor.run` (lines
347–367): given the outcomes of successive cycles, the list of sleep
durations performed until the loop exits.  The loop exits only on
`interrupt` (`KeyboardInterrupt`, line 362) or when the outcome trace is
exhausted; `success` sleeps `check_interval` (line 354), `failure` sleeps
`retry_interval` (line 358), and an unexpected `error` sleeps
`check_interval` (line 367). -/
def runLoop (ci ri : Int) : List CycleOutcome → List Int
  | [] => []
  | .interrupt :: _ => []
  | .success :: rest => ci :: runLoop ci ri rest
  | .failure :: rest => ri :: runLoop ci ri rest
  | .error :: rest => ci :: runLoop ci ri rest

example :
    check_flight_price 8000 ⟨none, none⟩ [("k1", some 7500), ("k2", some 9000)] true
      = ⟨true, true, ⟨some 7500, some 7500⟩⟩ := by decide

example :
    check_flight_price 8000 ⟨some 7500, some 7500⟩ [("k1", some 7600)] true
      = ⟨false, true, ⟨some 7500, some 7600⟩⟩ := by decide

example :
    check_flight_price 8000 ⟨some 7500, none⟩ [("k1", some 7200)] true
      = ⟨true, true, ⟨some 7200, some 7200⟩⟩ := by decide

example :
    check_flight_price 8000 ⟨some 7500, none⟩ [("k1", none)] true
      = ⟨false, false, ⟨some 7500, none⟩⟩ := by decide

/-- Exhaustive case analysis of one `check_flight_price` cycle: either there is
no valid price (cycle fails, state untouched), or the minimum `cur` exists and
the cycle lands in exactly one of the three decision branches of lines
301–325. -/
theorem check_flight_price_cases (threshold : Int) (st : MonitorState)
    (prices : List (String × Option Int)) (emailOk : Bool) :
    ((prices.filterMap Prod.snd).min? = none ∧
      check_flight_price threshold st prices emailOk = ⟨false, false, st⟩) ∨
    ∃ cur, (prices.filterMap Prod.snd).min? = some cur ∧
      ((cur < threshold ∧
          (st.lowest_price_list = none ∨
            ∃ b, st.lowest_price_list = some b ∧ cur < b) ∧
          check_flight_price threshold st prices emailOk
            = ⟨true, emailOk, ⟨some cur, some cur⟩⟩) ∨
       (cur < threshold ∧ (∃ b, st.lowest_price_list = some b ∧ b ≤ cur) ∧
          check_flight_price threshold st prices emailOk
            = ⟨false, true, ⟨st.lowest_price_list, some cur⟩⟩) ∨
       (threshold ≤ cur ∧
          check_flight_price threshold st prices emailOk
            = ⟨false, true, ⟨st.lowest_price_list, some cur⟩⟩)) := by
  cases hmin : (prices.filterMap Prod.snd).min? with
  | none =>
    left
    exact ⟨rfl, by simp [check_flight_price, hmin]⟩
  | some cur =>
    right
    refine ⟨cur, rfl, ?_⟩
    by_cases hcur : cur < threshold
    · cases hb : st.lowest_price_list with
      | none =>
        exact Or.inl ⟨hcur, Or.inl rfl, by simp [check_flight_price, hmin, hcur, hb]⟩
      | some b =>
        by_cases hlt : cur < b
        · exact Or.inl ⟨hcur, Or.inr ⟨b, rfl, hlt⟩,
            by simp [check_flight_price, hmin, hcur, hb, hlt]⟩
        · exact Or.inr <| Or.inl ⟨hcur, ⟨b, rfl, le_of_not_lt hlt⟩,
            by simp [check_flight_price, hmin, hcur, hb, hlt]⟩
    · exact Or.inr <| Or.inr ⟨le_of_not_lt hcur,
        by simp [check_flight_price, hmin, hcur]⟩

/-- Step lemma: once `lowest_price_list` is set, one cycle can only keep it or
lower it. -/
theorem check_best_mono (threshold : Int) (st : MonitorState)
    (prices : List (String × Option Int)) (emailOk : Bool) (b : Int)
    (hb : st.lowest_price_list = some b) :
    ∃ b', (check_flight_price threshold st prices emailOk).state.lowest_price_list
            = some b' ∧ b' ≤ b := by
  rcases check_flight_price_cases threshold st prices emailOk with
    ⟨_, heq⟩ | ⟨cur, _, ⟨_, hcond, heq⟩ | ⟨_, _, heq⟩ | ⟨_, heq⟩⟩
  · exact ⟨b, by rw [heq]; exact hb, le_refl b⟩
  · refine ⟨cur, by rw [heq], ?_⟩
    rcases hcond with hnone | ⟨b0, hb0, hlt⟩
    · rw [hb] at hnone; cases hnone
    · rw [hb] at hb0; injection hb0 with hb0; subst hb0; exact le_of_lt hlt
  · exact ⟨b, by rw [heq]; exact hb, le_refl b⟩
  · exact ⟨b, by rw [heq]; exact hb, le_refl b⟩

/-- Step lemma: a cycle that does not fire leaves `lowest_price_list`
untouched. -/
theorem check_best_unchanged_of_not_fire (threshold : Int) (st : MonitorState)
    (prices : List (String × Option Int)) (emailOk : Bool)
    (h : (check_flight_price threshold st prices emailOk).fire = false) :
    (check_flight_price threshold st prices emailOk).state.lowest_price_list
      = st.lowest_price_list := by
  rcases check_flight_price_cases threshold st prices emailOk with
    ⟨_, heq⟩ | ⟨cur, _, ⟨_, _, heq⟩ | ⟨_, _, heq⟩ | ⟨_, heq⟩⟩
  · rw [heq]
  · rw [heq] at h; cases h
  · rw [heq]
  · rw [heq]

/-- Sequence lemma: over any run of cycles, a set `lowest_price_list` never
increases. -/
theorem runCycles_best_mono (threshold : Int)
    (cycles : List (List (String × Option Int) × Bool)) :
    ∀ st b, st.lowest_price_list = some b →
      ∃ b', (runCycles threshold st cycles).lowest_price_list = some b' ∧ b' ≤ b := by
  induction cycles with
  | nil => exact fun st b hb => ⟨b, hb, le_refl b⟩
  | cons c rest ih =>
    intro st b hb
    obtain ⟨b1, h1, hle1⟩ := check_best_mono threshold st c.1 c.2 b hb
    obtain ⟨b', h', hle'⟩ := ih _ b1 h1
    exact ⟨b', h', le_trans hle' hle1⟩

/-- C1: a cycle with at least one valid price observation fires exactly when
the minimum observed amount is strictly below the threshold and
`lowest_price_list` is unset or the minimum strictly improves on it; in
particular a minimum at or above the threshold never fires. -/
theorem C1_alert_fires_iff (threshold : Int) (st : MonitorState)
    (prices : List (String × Option Int)) (emailOk : Bool) (cur : Int)
    (hmin : (prices.filterMap Prod.snd).min? = some cur) :
    (check_flight_price threshold st prices emailOk).fire = true ↔
      cur < threshold ∧ (st.lowest_price_list = none ∨
        ∃ best, st.lowest_price_list = some best ∧ cur < best) := by
  rcases check_flight_price_cases threshold st prices emailOk with
    ⟨h0, _⟩ | ⟨c, hc, ⟨hcur, hcond, heq⟩ | ⟨hcur, ⟨b, hb, hble⟩, heq⟩ | ⟨hthr, heq⟩⟩
  · rw [hmin] at h0; cases h0
  all_goals rw [hmin] at hc; injection hc with hc; subst hc
  · rw [heq]; exact ⟨fun _ => ⟨hcur, hcond⟩, fun _ => rfl⟩
  · rw [heq]
    simp only [show (false = true) = False from by simp, false_iff]
    rintro ⟨_, hnone | ⟨b', hb', hlt⟩⟩
    · rw [hb] at hnone; cases hnone
    · rw [hb] at hb'; injection hb' with hb'; subst hb'
      exact absurd hble (not_le_of_lt hlt)
  · rw [heq]
    simp only [show (false = true) = False from by simp, false_iff]
    rintro ⟨hlt, _⟩
    exact absurd hthr (not_le_of_lt hlt)

/-- Witness for C1 at a concrete cycle: threshold 8000, no prior state,
observations 7500 and 9000. -/
theorem C1_alert_fires_iff_witness :
    (check_flight_price 8000 ⟨none, none⟩
        [("k1", some 7500), ("k2", some 9000)] true).fire = true ↔
      (7500 : Int) < 8000 ∧ ((none : Option Int) = none ∨
        ∃ best, (none : Option Int) = some best ∧ (7500 : Int) < best) :=
  C1_alert_fires_iff 8000 ⟨none, none⟩ [("k1", some 7500), ("k2", some 9000)]
    true 7500 (by decide)

/-- C2: `lowest_price_list` is monotonically non-increasing once set — both
over a single cycle and over any sequence of cycles — and its value changes
only on cycles whose alert decision fires. -/
theorem C2_hysteresis_monotone (threshold : Int) (st : MonitorState)
    (prices : List (String × Option Int)) (emailOk : Bool) :
    (∀ b, st.lowest_price_list = some b →
      ∃ b', (check_flight_price threshold st prices emailOk).state.lowest_price_list
              = some b' ∧ b' ≤ b) ∧
    ((check_flight_price threshold st prices emailOk).fire = false →
      (check_flight_price threshold st prices emailOk).state.lowest_price_list
        = st.lowest_price_list) ∧
    (∀ cycles b, st.lowest_price_list = some b →
      ∃ b', (runCycles threshold st cycles).lowest_price_list = some b' ∧ b' ≤ b) :=
  ⟨fun b hb => check_best_mono threshold st prices emailOk b hb,
   check_best_unchanged_of_not_fire threshold st prices emailOk,
   fun cycles b hb => runCycles_best_mono threshold cycles st b hb⟩

/-- Witness for C2 at a concrete state and cycles. -/
theorem C2_hysteresis_monotone_witness :
    (∃ b', (check_flight_price 8000 ⟨some 7500, none⟩ [("k1", some 9000)]
              true).state.lowest_price_list = some b' ∧ b' ≤ 7500) ∧
    (∃ b', (runCycles 8000 ⟨some 7500, none⟩
              [([("k1", some 7200)], true)]).lowest_price_list
              = some b' ∧ b' ≤ 7500) :=
  ⟨(C2_hysteresis_monotone 8000 ⟨some 7500, none⟩ [("k1", some 9000)] true).1
      7500 rfl,
   (C2_hysteresis_monotone 8000 ⟨some 7500, none⟩ [("k1", some 9000)] true).2.2
      [([("k1", some 7200)], true)] 7500 rfl⟩

/-- Counterexample to C3: threshold 8000, fresh state, one observation at
7500, email dispatch fails.  The cycle fires and is reported as a failure, yet
the state is NOT left unchanged: `lowest_price_list` has already been set to
7500 (line 305 runs before `send_email`), and `last_price` is set too
(line 327). -/
theorem C3_counterexample :
    (check_flight_price 8000 ⟨none, none⟩ [("k1", some 7500)] false).fire = true ∧
    (check_flight_price 8000 ⟨none, none⟩ [("k1", some 7500)] false).success = false ∧
    (check_flight_price 8000 ⟨none, none⟩ [("k1", some 7500)] false).state
      ≠ (⟨none, none⟩ : MonitorState) := by
  refine ⟨rfl, rfl, ?_⟩
  decide

/-- C3 amended: when the alert fires but notification dispatch fails, the
cycle is indeed reported as a failure, but the state is NOT left unchanged:
both `lowest_price_list` and `last_price` have already been updated to the
current lowest price before the dispatch attempt. -/
theorem C3_amended_dispatch_failure (threshold : Int) (st : MonitorState)
    (prices : List (String × Option Int)) (cur : Int)
    (hmin : (prices.filterMap Prod.snd).min? = some cur)
    (hfire : (check_flight_price threshold st prices false).fire = true) :
    (check_flight_price threshold st prices false).success = false ∧
    (check_flight_price threshold st prices false).state
      = ⟨some cur, some cur⟩ := by
  rcases check_flight_price_cases threshold st prices false with
    ⟨h0, _⟩ | ⟨c, hc, ⟨_, _, heq⟩ | ⟨_, _, heq⟩ | ⟨_, heq⟩⟩
  · rw [hmin] at h0; cases h0
  all_goals rw [hmin] at hc; injection hc with hc; subst hc
  · rw [heq]; exact ⟨rfl, rfl⟩
  · rw [heq] at hfire; cases hfire
  · rw [heq] at hfire; cases hfire

/-- Witness for the amended C3 at the concrete failing cycle. -/
theorem C3_amended_dispatch_failure_witness :
    (check_flight_price 8000 ⟨none, none⟩ [("k1", some 7500)] false).success
      = false ∧
    (check_flight_price 8000 ⟨none, none⟩ [("k1", some 7500)] false).state
      = ⟨some 7500, some 7500⟩ :=
  C3_amended_dispatch_failure 8000 ⟨none, none⟩ [("k1", some 7500)] 7500
    (by decide) rfl

/-- C4: a cycle in which no observation has a non-null parsed amount is
reported as a failure and leaves both state fields unchanged
(`valid_prices` is empty, so line 292 returns before any mutation). -/
theorem C4_no_valid_prices (threshold : Int) (st : MonitorState)
    (prices : List (String × Option Int)) (emailOk : Bool)
    (h : prices.filterMap Prod.snd = []) :
    (check_flight_price threshold st prices emailOk).success = false ∧
    (check_flight_price threshold st prices emailOk).state.lowest_price_list
      = st.lowest_price_list ∧
    (check_flight_price threshold st prices emailOk).state.last_price
      = st.last_price := by
  have hmin : (prices.filterMap Prod.snd).min? = none := by rw [h]; rfl
  simp [check_flight_price, hmin]

/-- Witness for C4 at a concrete all-null cycle. -/
theorem C4_no_valid_prices_witness :
    (check_flight_price 8000 ⟨some 7000, some 7100⟩ [("k1", none), ("k2", none)]
        true).success = false ∧
    (check_flight_price 8000 ⟨some 7000, some 7100⟩ [("k1", none), ("k2", none)]
        true).state.lowest_price_list = some 7000 ∧
    (check_flight_price 8000 ⟨some 7000, some 7100⟩ [("k1", none), ("k2", none)]
        true).state.last_price = some 7100 :=
  C4_no_valid_prices 8000 ⟨some 7000, some 7100⟩ [("k1", none), ("k2", none)]
    true rfl

/-- Step lemma: one cycle preserves the invariant that a set
`lowest_price_list` is strictly below the threshold. -/
theorem check_best_lt_threshold (threshold : Int) (st : MonitorState)
    (prices : List (String × Option Int)) (emailOk : Bool)
    (hinv : ∀ b, st.lowest_price_list = some b → b < threshold) :
    ∀ b, (check_flight_price threshold st prices emailOk).state.lowest_price_list
           = some b → b < threshold := by
  rcases check_flight_price_cases threshold st prices emailOk with
    ⟨_, heq⟩ | ⟨cur, _, ⟨hcur, _, heq⟩ | ⟨_, _, heq⟩ | ⟨_, heq⟩⟩
  · rw [heq]; exact hinv
  · rw [heq]; intro b hb; injection hb with hb; subst hb; exact hcur
  · rw [heq]; exact hinv
  · rw [heq]; exact hinv

/-- Sequence lemma: the below-threshold invariant holds after any run of
cycles starting from a state satisfying it. -/
theorem runCycles_best_lt_threshold (threshold : Int)
    (cycles : List (List (String × Option Int) × Bool)) :
    ∀ st, (∀ b, st.lowest_price_list = some b → b < threshold) →
      ∀ b, (runCycles threshold st cycles).lowest_price_list = some b →
        b < threshold := by
  induction cycles with
  | nil => exact fun st hinv => hinv
  | cons c rest ih =>
    intro st hinv
    exact ih _ (check_best_lt_threshold threshold st c.1 c.2 hinv)

/-- C10: whenever `lowest_price_list` is non-null it is strictly below the
configured threshold — preserved by every cycle, and true after any sequence
of cycles from the initial state (both fields `None`). -/
theorem C10_best_below_threshold (threshold : Int) :
    (∀ st prices emailOk,
      (∀ b, st.lowest_price_list = some b → b < threshold) →
      ∀ b, (check_flight_price threshold st prices
              emailOk).state.lowest_price_list = some b → b < threshold) ∧
    (∀ cycles b,
      (runCycles threshold ⟨none, none⟩ cycles).lowest_price_list = some b →
      b < threshold) :=
  ⟨fun st prices emailOk hinv =>
      check_best_lt_threshold threshold st prices emailOk hinv,
   fun cycles b hb =>
      runCycles_best_lt_threshold threshold cycles ⟨none, none⟩
        (fun _ h => nomatch h) b hb⟩

/-- Witness for C10 at a concrete cycle and a concrete run. -/
theorem C10_best_below_threshold_witness :
    ((check_flight_price 8000 ⟨none, none⟩ [("k1", some 7500)]
        true).state.lowest_price_list = some 7500 ∧ (7500 : Int) < 8000) ∧
    ((runCycles 8000 ⟨none, none⟩
        [([("k1", some 7500)], true), ([("k2", some 9000)], true)]).lowest_price_list
        = some 7500 ∧ (7500 : Int) < 8000) :=
  ⟨⟨rfl, (C10_best_below_threshold 8000).1 ⟨none, none⟩ [("k1", some 7500)] true
      (fun _ h => nomatch h) 7500 rfl⟩,
   ⟨rfl, (C10_best_below_threshold 8000).2
      [([("k1", some 7500)], true), ([("k2", some 9000)], true)] 7500 rfl⟩⟩

/-- Every pair emitted by the inner sweep lies in the window on the left and
right, keeps the constant gap `return_date - dep_date`, and starts at or after
`dep_date`. -/
theorem slideInner_mem (first last : Int) :
    ∀ dep ret, ∀ p ∈ slideInner first last dep ret,
      first ≤ p.1 ∧ p.2 ≤ last ∧ p.2 - p.1 = ret - dep ∧ dep ≤ p.1 := by
  intro dep ret
  induction dep, ret using slideInner.induct first last with
  | case1 dep ret h ih =>
    intro p hp
    rw [slideInner, if_pos h] at hp
    rcases List.mem_cons.mp hp with hph | hpt
    · subst hph; exact ⟨h.1, h.2, by ring, le_refl dep⟩
    · obtain ⟨h1, h2, h3, h4⟩ := ih p hpt
      exact ⟨h1, h2, by omega, by omega⟩
  | case2 dep ret h =>
    intro p hp
    rw [slideInner, if_neg h] at hp
    cases hp

/-- The inner sweep emits pairs with strictly increasing departure dates. -/
theorem slideInner_pairwise (first last : Int) :
    ∀ dep ret,
      (slideInner first last dep ret).Pairwise (fun a b => a.1 < b.1) := by
  intro dep ret
  induction dep, ret using slideInner.induct first last with
  | case1 dep ret h ih =>
    rw [slideInner, if_pos h]
    refine List.Pairwise.cons ?_ ih
    intro p hp
    have := (slideInner_mem first last (dep + 1) (ret + 1) p hp).2.2.2
    omega
  | case2 dep ret h =>
    rw [slideInner, if_neg h]
    exact List.Pairwise.nil

/-- The inner sweep never repeats a pair. -/
theorem slideInner_nodup (first last dep ret : Int) :
    (slideInner first last dep ret).Nodup := by
  have h := slideInner_pairwise first last dep ret
  refine List.Pairwise.imp ?_ h
  intro a b hab heq
  rw [heq] at hab
  exact lt_irrefl _ hab

/-- Every pair emitted by the outer sweep at budget `L` lies in the window and
has trip length (gap + 1) between `shortest` and `L`. -/
theorem slideOuter_mem (first last shortest : Int) :
    ∀ L, ∀ p ∈ slideOuter first last shortest L,
      first ≤ p.1 ∧ p.2 ≤ last ∧ shortest ≤ p.2 - p.1 + 1 ∧
        p.2 - p.1 + 1 ≤ L := by
  intro L
  induction L using slideOuter.induct first last shortest with
  | case1 L h ih =>
    intro p hp
    rw [slideOuter, if_pos h] at hp
    rcases List.mem_append.mp hp with hin | hrec
    · obtain ⟨h1, h2, h3, _⟩ := slideInner_mem first last first (first + L - 1) p hin
      exact ⟨h1, h2, by omega, by omega⟩
    · obtain ⟨h1, h2, h3, h4⟩ := ih p hrec
      exact ⟨h1, h2, h3, by omega⟩
  | case2 L h =>
    intro p hp
    rw [slideOuter, if_neg h] at hp
    cases hp

/-- The outer sweep never repeats a pair: pairs from one budget iteration all
have trip length exactly `L`, later iterations have strictly smaller length,
and within one iteration the inner sweep is duplicate-free. -/
theorem slideOuter_nodup (first last shortest : Int) :
    ∀ L, (slideOuter first last shortest L).Nodup := by
  intro L
  induction L using slideOuter.induct first last shortest with
  | case1 L h ih =>
    rw [slideOuter, if_pos h]
    refine List.Nodup.append (slideInner_nodup first last first (first + L - 1)) ih ?_
    intro p hpin hprec
    have h1 := (slideInner_mem first last first (first + L - 1) p hpin).2.2.1
    have h2 := (slideOuter_mem first last shortest (L - 1) p hprec).2.2.2
    omega
  | case2 L h =>
    rw [slideOuter, if_neg h]
    exact List.nodup_nil

/-- The outer sweep produces nothing once the remaining budget drops below the
minimum trip length. -/
theorem slideOuter_eq_nil (first last shortest L : Int) (h : L < shortest) :
    slideOuter first last shortest L = [] := by
  rw [slideOuter, if_neg (by omega)]

/-- Concrete evaluation of the generator on a two-day window with
`shortest_date = 0`: the budget-0 iteration emits inverted and out-of-window
pairs. -/
theorem setup_keys_names_eval_0_1_0 :
    setup_keys_names 0 1 0 = [(0, 1), (0, 0), (1, 1), (0, -1), (1, 0), (2, 1)] := by
  simp [setup_keys_names, slideOuter, slideInner]

/-- Concrete evaluation of the generator on a three-day window with
`shortest_date = 2`. -/
theorem setup_keys_names_eval_0_2_2 :
    setup_keys_names 0 2 2 = [(0, 2), (0, 1), (1, 2)] := by
  simp [setup_keys_names, slideOuter, slideInner]

/-- Counterexample to C7: `setup_keys_names` contains no raise statement and
no `ConfigurationError` anywhere in the source; its embedding is a total
function.  With a 3-day window and `shortest_date = 16`
(`minTripLength > windowEnd - windowStart + 1`), and with
`first_date > last_date`, the generator returns the empty key list normally
instead of failing. -/
theorem C7_counterexample :
    setup_keys_names 0 2 16 = [] ∧ setup_keys_names 5 2 16 = [] := by
  constructor <;> simp [setup_keys_names, slideOuter]

/-- C7 amended: for a minimum trip length exceeding the window length, or a
window whose start is after its end (with a positive minimum trip length, as
in the source where it is 16), key generation raises nothing and returns the
empty key list. -/
theorem C7_amended_returns_empty (first_date last_date shortest_date : Int) :
    (last_date - first_date + 1 < shortest_date →
      setup_keys_names first_date last_date shortest_date = []) ∧
    (last_date < first_date → 1 ≤ shortest_date →
      setup_keys_names first_date last_date shortest_date = []) :=
  ⟨fun h => slideOuter_eq_nil first_date last_date shortest_date _ h,
   fun h1 h2 => slideOuter_eq_nil first_date last_date shortest_date _ (by omega)⟩

/-- Witness for the amended C7 at two concrete bad configurations. -/
theorem C7_amended_returns_empty_witness :
    setup_keys_names 0 3 16 = [] ∧ setup_keys_names 10 2 16 = [] :=
  ⟨(C7_amended_returns_empty 0 3 16).1 (by decide),
   (C7_amended_returns_empty 10 2 16).2 (by decide) (by decide)⟩

/-- Counterexample to C8: the configuration `first = 0`, `last = 1`,
`shortest_date = 0` satisfies the claim's validity condition
(`windowStart ≤ windowEnd` and `minTripLength ≤ windowEnd - windowStart + 1`),
yet the generator emits the key `(0, -1)` whose departure date is after its
return date (and `(2, 1)`, whose departure date lies outside the window). -/
theorem C8_counterexample :
    ((0 : Int) ≤ 1 ∧ (0 : Int) ≤ 1 - 0 + 1) ∧
    (0, -1) ∈ setup_keys_names 0 1 0 ∧ ¬((0 : Int) ≤ -1) := by
  refine ⟨by decide, ?_, by decide⟩
  rw [setup_keys_names_eval_0_1_0]
  decide

/-- C8 amended: under the additional (forced) assumption
`1 ≤ minTripLength`, every generated key has `departDate ≤ returnDate`, trip
length at least `shortest_date`, and both dates inside
`[first_date, last_date]`. -/
theorem C8_amended_key_validity (first_date last_date shortest_date : Int)
    (hw : first_date ≤ last_date) (hpos : 1 ≤ shortest_date)
    (hlen : shortest_date ≤ last_date - first_date + 1) :
    ∀ p ∈ setup_keys_names first_date last_date shortest_date,
      p.1 ≤ p.2 ∧ shortest_date ≤ p.2 - p.1 + 1 ∧
      first_date ≤ p.1 ∧ p.1 ≤ last_date ∧
      first_date ≤ p.2 ∧ p.2 ≤ last_date := by
  intro p hp
  obtain ⟨h1, h2, h3, h4⟩ :=
    slideOuter_mem first_date last_date shortest_date
      (last_date - first_date + 1) p hp
  refine ⟨by omega, h3, h1, by omega, by omega, h2⟩

/-- Witness for the amended C8: the key `(0, 1)` generated for the window
`[0, 2]` with minimum trip length 2 satisfies all the invariants. -/
theorem C8_amended_key_validity_witness :
    (0, 1) ∈ setup_keys_names 0 2 2 ∧
    ((0 : Int) ≤ 1 ∧ (2 : Int) ≤ 1 - 0 + 1 ∧ (0 : Int) ≤ 0 ∧ (0 : Int) ≤ 2 ∧
      (0 : Int) ≤ 1 ∧ (1 : Int) ≤ 2) :=
  have hmem : (0, 1) ∈ setup_keys_names 0 2 2 := by
    rw [setup_keys_names_eval_0_2_2]; decide
  ⟨hmem, C8_amended_key_validity 0 2 2 (by decide) (by decide) (by decide)
    (0, 1) hmem⟩

/-- C9: for every valid configuration the generated key list contains no
duplicates — each outer iteration emits keys of one fixed trip length with
strictly increasing departure dates, and distinct iterations have distinct
trip lengths. -/
theorem C9_keys_nodup (first_date last_date shortest_date : Int)
    (hw : first_date ≤ last_date)
    (hlen : shortest_date ≤ last_date - first_date + 1) :
    (setup_keys_names first_date last_date shortest_date).Nodup :=
  slideOuter_nodup first_date last_date shortest_date
    (last_date - first_date + 1)

/-- Witness for C9 at the concrete window `[0, 2]` with minimum trip
length 2. -/
theorem C9_keys_nodup_witness : (setup_keys_names 0 2 2).Nodup :=
  C9_keys_nodup 0 2 2 (by decide) (by decide)

/-- C5 is a code bug (stale `raw_price`): with two keys, where `"K1"`'s first
selector finds `"7 500 kr"` and every selector times out for `"K2"`, the code
records the stale `"K1"` text as `"K2"`'s observation and saves no snapshot —
the claim requires a null observation plus a snapshot for `"K2"`.  Even for a
first key with all selectors timing out (no stale value available), the
observation is null only via the `UnboundLocalError` path and no snapshot is
saved either. -/
theorem C5_stale_raw_price_bug :
    fetch_flight_data
        [("K1", [some "7 500 kr"]),
         ("K2", [none, none, none, none, none])] none
      = ([("K1", some "7 500 kr"), ("K2", some "7 500 kr")], []) ∧
    fetch_flight_data [("K1", [none, none, none, none, none])] none
      = ([("K1", none)], []) := by
  constructor <;> decide

/-- Counterexample to C6: a cycle ending in an unexpected top-level error is
followed by a sleep of `check_interval` (1800 s), not the shorter
`retry_interval` (60 s) that the claim requires for every failed cycle. -/
theorem C6_counterexample :
    runLoop check_interval retry_interval [CycleOutcome.error]
        = [check_interval] ∧
    check_interval ≠ retry_interval := by
  constructor <;> decide

/-- C6 amended: a successful cycle is followed by a `check_interval` sleep
and a cycle whose `check_flight_price` returns `False` by a `retry_interval`
sleep, but a cycle ending in an unexpected error caught at the top level is
followed by a `check_interval` sleep (line 367) — not `retry_interval`; only
operator cancellation exits the loop. -/
theorem C6_amended_sleep_schedule (ci ri : Int) (rest : List CycleOutcome) :
    runLoop ci ri (CycleOutcome.success :: rest) = ci :: runLoop ci ri rest ∧
    runLoop ci ri (CycleOutcome.failure :: rest) = ri :: runLoop ci ri rest ∧
    runLoop ci ri (CycleOutcome.error :: rest) = ci :: runLoop ci ri rest ∧
    runLoop ci ri (CycleOutcome.interrupt :: rest) = [] :=
  ⟨rfl, rfl, rfl, rfl⟩
